import Mathlib

set_option maxHeartbeats 1000000

/-!
Shallow embedding of the AttendanceProject repository: the persistent store
`FaceEmbeddingDB` (src/face_vector.py) and the geofenced check-in/check-out
flows (src/app/main.py).

The Postgres tables become explicit Lean state (`DBState`); each Python
method that talks to the database takes a Boolean error oracle `err`
standing for "the underlying query raised": the Python `try/except` blocks
then roll back and return the method's failure value, which is modelled by
returning the unchanged state.  The pgvector `<=>` operator and the face
detector are external collaborators, so they enter as function parameters
(`dist`, `faces`).  Float coordinates are idealised as real numbers and
trigonometric float functions as their real counterparts.
-/

/-- A timestamp: calendar day plus a within-day tick; Postgres `DATE(event_time)`
extracts the `day` component. -/
structure Timestamp where
  day : Nat
  tick : Nat
deriving DecidableEq, Repr

/-- A row of the `face_embeddings` table: `id SERIAL, name UNIQUE, embedding, created_at`. -/
structure FaceRow where
  id : Nat
  name : String
  embedding : List ℚ
  created_at : Timestamp
deriving DecidableEq, Repr

/-- A row of the `attendance` table:
`id SERIAL, user_name, event_type, event_time, latitude, longitude`. -/
structure AttRow where
  id : Nat
  user_name : String
  event_type : String
  event_time : Timestamp
  latitude : ℝ
  longitude : ℝ

/-- The database state: both tables plus the two `SERIAL` sequences. -/
structure DBState where
  face_embeddings : List FaceRow
  attendance : List AttRow
  next_face_id : Nat
  next_att_id : Nat

/-- The freshly created database (`create_tables` on an empty store). -/
def DBState.empty : DBState := ⟨[], [], 1, 1⟩

/-- `INSERT ... ON CONFLICT (name) DO UPDATE SET embedding = EXCLUDED.embedding`
on the `face_embeddings` rows: replace the embedding of every row named `name`
(there is at most one, by the UNIQUE constraint), or append a fresh row. -/
def upsertRow (name : String) (emb : List ℚ) (now : Timestamp) (fid : Nat)
    (rows : List FaceRow) : List FaceRow :=
  if rows.any (fun r => r.name == name) then
    rows.map (fun r => if r.name == name then { r with embedding := emb } else r)
  else
    rows ++ [⟨fid, name, emb, now⟩]

/-- `FaceEmbeddingDB.store_embedding`: upsert one embedding; on a raised
database error (`err`), roll back and return `False`. -/
def store_embedding (err : Bool) (name : String) (emb : List ℚ) (now : Timestamp)
    (st : DBState) : Bool × DBState :=
  if err then (false, st)
  else
    (true, { st with
      face_embeddings := upsertRow name emb now st.next_face_id st.face_embeddings,
      next_face_id := st.next_face_id + 1 })

/-- `FaceEmbeddingDB.store_multiple_embeddings`: one batched upsert statement,
committed as a single transaction; on error, roll back and return `False`. -/
def store_multiple_embeddings (err : Bool) (data : List (String × List ℚ))
    (now : Timestamp) (st : DBState) : Bool × DBState :=
  if err then (false, st)
  else
    (true, data.foldl
      (fun s p => { s with
        face_embeddings := upsertRow p.1 p.2 now s.next_face_id s.face_embeddings,
        next_face_id := s.next_face_id + 1 })
      st)

/-- `FaceEmbeddingDB.has_checked_in_today`: `SELECT 1 FROM attendance WHERE
user_name = %s AND event_type = checkin AND DATE(event_time) = today`;
on a raised error the `except` branch returns `False`. -/
def has_checked_in_today (err : Bool) (user_name : String) (today : Nat)
    (st : DBState) : Bool :=
  if err then false
  else st.attendance.any (fun r =>
    r.user_name == user_name && r.event_type == "checkin" && r.event_time.day == today)

/-- `FaceEmbeddingDB.has_checked_out_today`: same query with `event_type = checkout`. -/
def has_checked_out_today (err : Bool) (user_name : String) (today : Nat)
    (st : DBState) : Bool :=
  if err then false
  else st.attendance.any (fun r =>
    r.user_name == user_name && r.event_type == "checkout" && r.event_time.day == today)

/-- `FaceEmbeddingDB.log_attendance`: `INSERT INTO attendance (user_name,
event_type, latitude, longitude) VALUES (...)` with `event_time` defaulting to
the current timestamp; on error, roll back and return `False`. -/
def log_attendance (err : Bool) (user_name event_type : String) (lat lon : ℝ)
    (now : Timestamp) (st : DBState) : Bool × DBState :=
  if err then (false, st)
  else
    (true, { st with
      attendance := st.attendance ++ [⟨st.next_att_id, user_name, event_type, now, lat, lon⟩],
      next_att_id := st.next_att_id + 1 })

/-- `FaceEmbeddingDB.delete_user`: `DELETE FROM face_embeddings WHERE name = %s`;
the `ON DELETE CASCADE` foreign key removes the attendance rows of a deleted
identity.  Returns `cur.rowcount > 0`; on error, roll back and return `False`. -/
def delete_user (err : Bool) (name : String) (st : DBState) : Bool × DBState :=
  if err then (false, st)
  else
    let remaining := st.face_embeddings.filter (fun r => !(r.name == name))
    if remaining.length < st.face_embeddings.length then
      (true, { st with
        face_embeddings := remaining,
        attendance := st.attendance.filter (fun a => !(a.user_name == name)) })
    else
      (false, st)

/-- One row returned by `FaceEmbeddingDB.vector_search`:
`SELECT id, name, embedding, created_at, 1 - (embedding <=> q) as similarity`. -/
structure SearchResult where
  id : Nat
  name : String
  embedding : List ℚ
  created_at : Timestamp
  similarity : ℚ
deriving DecidableEq, Repr

/-- `FaceEmbeddingDB.vector_search`: the pgvector cosine-distance operator
`<=>` is an external collaborator, passed as `dist`.  The SQL filters rows
with `1 - (embedding <=> q) > 0.9`, orders by `embedding <=> q` ascending and
takes `LIMIT 5`; on a raised error the `except` branch returns `[]`. -/
def vector_search (dist : List ℚ → List ℚ → ℚ) (err : Bool) (enc : List ℚ)
    (st : DBState) : List SearchResult :=
  if err then []
  else
    let matched := st.face_embeddings.filter
      (fun r => decide ((0.9 : ℚ) < 1 - dist r.embedding enc))
    let sorted := @List.insertionSort FaceRow
      (fun a b => dist a.embedding enc ≤ dist b.embedding enc)
      (fun _ _ => inferInstance) matched
    (sorted.take 5).map
      (fun r => ⟨r.id, r.name, r.embedding, r.created_at, 1 - dist r.embedding enc⟩)

/-- Number of identity rows named `x` (`count(identities where name=X)`). -/
def countName (x : String) (st : DBState) : Nat :=
  (st.face_embeddings.filter (fun r => r.name == x)).length

/-- The stored embedding of the (first) identity row named `x`, when present. -/
def findEmb (x : String) (st : DBState) : Option (List ℚ) :=
  (st.face_embeddings.find? (fun r => r.name == x)).map (fun r => r.embedding)

/-- Number of attendance events of type `ev` for user `x` on calendar day `d`. -/
def countEvents (x ev : String) (d : Nat) (st : DBState) : Nat :=
  (st.attendance.filter (fun a =>
    a.user_name == x && a.event_type == ev && a.event_time.day == d)).length

/-- A sequence of enrollments, each applied through `store_embedding` with no
database error. -/
def enrollSeq (ops : List (String × List ℚ × Timestamp)) (st : DBState) : DBState :=
  ops.foldl (fun s op => (store_embedding false op.1 op.2.1 op.2.2 s).2) st

/-- `math.radians`: degrees to radians, `x * (pi / 180)`. -/
noncomputable def radians (x : ℝ) : ℝ := x * (Real.pi / 180)

/-- `math.atan2 y x`, idealised over the reals (the C library convention). -/
noncomputable def atan2 (y x : ℝ) : ℝ :=
  if 0 < x then Real.arctan (y / x)
  else if x < 0 then
    (if 0 ≤ y then Real.arctan (y / x) + Real.pi else Real.arctan (y / x) - Real.pi)
  else
    (if 0 < y then Real.pi / 2 else if y < 0 then -(Real.pi / 2) else 0)

/-- The intermediate `a` of the `haversine` function in `app/main.py`:
`sin(dlat/2)*sin(dlat/2) + cos(radians(lat1))*cos(radians(lat2))*sin(dlon/2)*sin(dlon/2)`. -/
noncomputable def havA (lat1 lon1 lat2 lon2 : ℝ) : ℝ :=
  Real.sin (radians (lat2 - lat1) / 2) * Real.sin (radians (lat2 - lat1) / 2) +
    Real.cos (radians lat1) * Real.cos (radians lat2) *
      Real.sin (radians (lon2 - lon1) / 2) * Real.sin (radians (lon2 - lon1) / 2)

/-- `haversine` from `app/main.py`: `R * c * 1000` with `R = 6371` and
`c = 2 * atan2(sqrt(a), sqrt(1 - a))`. -/
noncomputable def haversine (lat1 lon1 lat2 lon2 : ℝ) : ℝ :=
  6371 * (2 * atan2 (Real.sqrt (havA lat1 lon1 lat2 lon2))
    (Real.sqrt (1 - havA lat1 lon1 lat2 lon2))) * 1000

/-- The configured geofence zones of `app/main.py`; a single office zone. -/
def GEOFENCES : List (String × ℝ × ℝ) := [("office", 16.5422428, 81.4968464)]

/-- `MAX_DISTANCE = 100` meters. -/
def MAX_DISTANCE : ℝ := 100

/-- The default `latitude` query parameter of `process_checkin`/`process_checkout`. -/
def DEFAULT_LAT : ℝ := 16.5422428

/-- The default `longitude` query parameter of `process_checkin`/`process_checkout`. -/
def DEFAULT_LON : ℝ := 81.4968464

/-- `is_within_geofence` in the check-in/check-out handlers: the reported point
is within `MAX_DISTANCE` of **any** configured zone center, by the distance
function `d` (instantiated with `haversine` by the code). -/
def is_within_geofence (d : ℝ → ℝ → ℝ → ℝ → ℝ) (lat lon : ℝ) : Prop :=
  ∃ g ∈ GEOFENCES, d lat lon g.2.1 g.2.2 ≤ MAX_DISTANCE

/-- The JSON body returned by the check-in/check-out handlers. -/
structure ApiResponse where
  success : Bool
  message : String
deriving DecidableEq, Repr

open Classical in
/-- `process_checkin` from `app/main.py`.  `d` is the distance function
(`haversine` in the code), `errHas`/`errLog` the error oracles of the two
database calls, `faces` the names produced by the external face detector on
the uploaded photo, `now` the request time.  The geofence gate runs first and
short-circuits; the recognized name is the first detected face provided it is
not `"Unknown"`; the daily-idempotency check guards the insert; the result of
`log_attendance` is ignored, as in the source. -/
noncomputable def process_checkin (d : ℝ → ℝ → ℝ → ℝ → ℝ) (errHas errLog : Bool)
    (faces : List String) (lat lon : ℝ) (now : Timestamp) (st : DBState) :
    ApiResponse × DBState :=
  if is_within_geofence d lat lon then
    match faces with
    | [] => (⟨false, "Face not recognized."⟩, st)
    | n :: _ =>
      if n == "Unknown" then (⟨false, "Face not recognized."⟩, st)
      else if has_checked_in_today errHas n now.day st then
        (⟨false, "You have already checked in today."⟩, st)
      else
        (⟨true, "Check-in successful!"⟩, (log_attendance errLog n "checkin" lat lon now st).2)
  else
    (⟨false, "Check-in failed. You are not within the allowed area."⟩, st)

open Classical in
/-- `process_checkout` from `app/main.py`: symmetric to `process_checkin`,
gated on `has_checked_out_today` only. -/
noncomputable def process_checkout (d : ℝ → ℝ → ℝ → ℝ → ℝ) (errHas errLog : Bool)
    (faces : List String) (lat lon : ℝ) (now : Timestamp) (st : DBState) :
    ApiResponse × DBState :=
  if is_within_geofence d lat lon then
    match faces with
    | [] => (⟨false, "Face not recognized."⟩, st)
    | n :: _ =>
      if n == "Unknown" then (⟨false, "Face not recognized."⟩, st)
      else if has_checked_out_today errHas n now.day st then
        (⟨false, "You have already checked out today."⟩, st)
      else
        (⟨true, "Check-out successful!"⟩, (log_attendance errLog n "checkout" lat lon now st).2)
  else
    (⟨false, "Check-out failed. You are not within the allowed area."⟩, st)

/-- A constant distance function placing every point at distance 0 (a stand-in
for the external distance oracle in concrete evaluations). -/
def dZero : ℝ → ℝ → ℝ → ℝ → ℝ := fun _ _ _ _ => 0

/-- A constant distance function placing every point 1000 meters away. -/
def dFar : ℝ → ℝ → ℝ → ℝ → ℝ := fun _ _ _ _ => 1000

/-- A concrete stand-in for the pgvector `<=>` operator: the head of the
stored embedding (or 1). -/
def dist0 : List ℚ → List ℚ → ℚ := fun a _ => a.headD 1

/-- A concrete state whose ledger already holds a checkin for alice on day 0. -/
def stC9 : DBState := ⟨[], [⟨1, "alice", "checkin", ⟨0, 0⟩, 0, 0⟩], 1, 2⟩

/-- A concrete state with one enrolled identity bob. -/
def stC4 : DBState := ⟨[⟨1, "bob", [1], ⟨0, 0⟩⟩], [], 2, 1⟩

/-- A concrete state with identities bob and carol, each with one attendance event. -/
def stC6 : DBState :=
  ⟨[⟨1, "bob", [1], ⟨0, 0⟩⟩, ⟨2, "carol", [2], ⟨0, 0⟩⟩],
   [⟨1, "bob", "checkin", ⟨0, 0⟩, 0, 0⟩, ⟨2, "carol", "checkin", ⟨0, 0⟩, 0, 0⟩], 3, 3⟩

/-- A concrete state with three identities at `dist0` distances 5/100, 1/100, 2/10. -/
def stV : DBState :=
  ⟨[⟨1, "alice", [5/100], ⟨0, 0⟩⟩, ⟨2, "bob", [1/100], ⟨0, 0⟩⟩,
    ⟨3, "carol", [2/10], ⟨0, 0⟩⟩], [], 4, 1⟩

/-- A concrete state whose only identity is below the 0.9 similarity threshold. -/
def stV2 : DBState := ⟨[⟨3, "carol", [2/10], ⟨0, 0⟩⟩], [], 4, 1⟩

/-- Any point is inside the geofence under the constant-zero distance function. -/
lemma dZero_within (lat lon : ℝ) : is_within_geofence dZero lat lon := by
  refine ⟨("office", 16.5422428, 81.4968464), ?_, ?_⟩
  · simp [GEOFENCES]
  · norm_num [dZero, MAX_DISTANCE]

lemma havA_self (lat lon : ℝ) : havA lat lon lat lon = 0 := by
  simp [havA, radians]

lemma atan2_zero_one : atan2 0 1 = 0 := by
  rw [atan2, if_pos (by norm_num : (0 : ℝ) < 1)]
  simp

lemma haversine_self (lat lon : ℝ) : haversine lat lon lat lon = 0 := by
  rw [haversine, havA_self]
  simp [atan2_zero_one]

lemma havA_symm (a b c d : ℝ) : havA c d a b = havA a b c d := by
  have h1 : radians (a - c) = -(radians (c - a)) := by rw [radians, radians]; ring
  have h2 : radians (b - d) = -(radians (d - b)) := by rw [radians, radians]; ring
  rw [havA, havA, h1, h2, neg_div, Real.sin_neg, neg_div, Real.sin_neg]
  ring

lemma haversine_symm (a b c d : ℝ) : haversine a b c d = haversine c d a b := by
  rw [haversine, haversine, havA_symm]

/-- Claim C8: for every point, the haversine distance from the point to itself is 0,
and haversine is symmetric in its two argument points. -/
theorem haversine_self_and_symm :
    (∀ lat lon : ℝ, haversine lat lon lat lon = 0) ∧
    (∀ a b c d : ℝ, haversine a b c d = haversine c d a b) :=
  ⟨haversine_self, haversine_symm⟩

/-- Claim C7: every store-mutating operation (`store_embedding`,
`store_multiple_embeddings`, `log_attendance`) that encounters a database
error returns `False` instead of raising, and leaves the store state
unchanged (the transaction is rolled back). -/
theorem store_mutations_rollback_on_error (name : String) (emb : List ℚ)
    (data : List (String × List ℚ)) (user ev : String) (lat lon : ℝ)
    (now : Timestamp) (st : DBState) :
    store_embedding true name emb now st = (false, st) ∧
    store_multiple_embeddings true data now st = (false, st) ∧
    log_attendance true user ev lat lon now st = (false, st) :=
  ⟨rfl, rfl, rfl⟩

/-- When the geofence gate passes, `process_checkin` never returns the
geofence-rejection message. -/
lemma checkin_msg_of_within (d : ℝ → ℝ → ℝ → ℝ → ℝ) (errHas errLog : Bool)
    (faces : List String) (lat lon : ℝ) (now : Timestamp) (st : DBState)
    (h : is_within_geofence d lat lon) :
    (process_checkin d errHas errLog faces lat lon now st).1.message ≠
      "Check-in failed. You are not within the allowed area." := by
  rw [process_checkin.eq_def, if_pos h]
  cases faces with
  | nil => simp
  | cons n rest =>
    by_cases hu : (n == "Unknown") = true
    · simp [hu]
    · rw [Bool.not_eq_true] at hu
      by_cases hc : has_checked_in_today errHas n now.day st = true
      · simp [hu, hc]
      · rw [Bool.not_eq_true] at hc
        simp [hu, hc]

/-- When the geofence gate passes, `process_checkout` never returns the
geofence-rejection message. -/
lemma checkout_msg_of_within (d : ℝ → ℝ → ℝ → ℝ → ℝ) (errHas errLog : Bool)
    (faces : List String) (lat lon : ℝ) (now : Timestamp) (st : DBState)
    (h : is_within_geofence d lat lon) :
    (process_checkout d errHas errLog faces lat lon now st).1.message ≠
      "Check-out failed. You are not within the allowed area." := by
  rw [process_checkout.eq_def, if_pos h]
  cases faces with
  | nil => simp
  | cons n rest =>
    by_cases hu : (n == "Unknown") = true
    · simp [hu]
    · rw [Bool.not_eq_true] at hu
      by_cases hc : has_checked_out_today errHas n now.day st = true
      · simp [hu, hc]
      · rw [Bool.not_eq_true] at hc
        simp [hu, hc]

/-- A point farther than `MAX_DISTANCE` from every configured zone is not
within the geofence. -/
lemma not_within_of_far (d : ℝ → ℝ → ℝ → ℝ → ℝ) (lat lon : ℝ)
    (h : ∀ g ∈ GEOFENCES, MAX_DISTANCE < d lat lon g.2.1 g.2.2) :
    ¬ is_within_geofence d lat lon := by
  rintro ⟨g, hg, hle⟩
  exact absurd hle (not_le.mpr (h g hg))

/-- Claim C2: a reported location farther than the 100-meter radius from every
configured zone yields the geofence rejection for both check-in and
check-out, with the state unchanged, regardless of detected faces and store
errors; conversely, a point within the radius of any configured zone passes
the gate and the geofence rejection is never returned. -/
theorem geofence_gate_spec (d : ℝ → ℝ → ℝ → ℝ → ℝ) (errHas errLog : Bool)
    (faces : List String) (lat lon : ℝ) (now : Timestamp) (st : DBState) :
    ((∀ g ∈ GEOFENCES, MAX_DISTANCE < d lat lon g.2.1 g.2.2) →
      process_checkin d errHas errLog faces lat lon now st =
        (⟨false, "Check-in failed. You are not within the allowed area."⟩, st) ∧
      process_checkout d errHas errLog faces lat lon now st =
        (⟨false, "Check-out failed. You are not within the allowed area."⟩, st)) ∧
    (is_within_geofence d lat lon →
      (process_checkin d errHas errLog faces lat lon now st).1.message ≠
        "Check-in failed. You are not within the allowed area." ∧
      (process_checkout d errHas errLog faces lat lon now st).1.message ≠
        "Check-out failed. You are not within the allowed area.") := by
  constructor
  · intro hfar
    have hno := not_within_of_far d lat lon hfar
    constructor
    · rw [process_checkin.eq_def, if_neg hno]
    · rw [process_checkout.eq_def, if_neg hno]
  · intro hin
    exact ⟨checkin_msg_of_within d errHas errLog faces lat lon now st hin,
           checkout_msg_of_within d errHas errLog faces lat lon now st hin⟩

/-- Witness for C2: under the constant far distance both requests are
rejected with the state unchanged; under the constant zero distance the
geofence rejection is not returned. -/
theorem geofence_gate_spec_witness :
    (∀ g ∈ GEOFENCES, MAX_DISTANCE < dFar 1 2 g.2.1 g.2.2) ∧
    process_checkin dFar false false ["alice"] 1 2 ⟨0, 0⟩ DBState.empty =
      (⟨false, "Check-in failed. You are not within the allowed area."⟩, DBState.empty) ∧
    process_checkout dFar false false ["alice"] 1 2 ⟨0, 0⟩ DBState.empty =
      (⟨false, "Check-out failed. You are not within the allowed area."⟩, DBState.empty) ∧
    is_within_geofence dZero 1 2 ∧
    (process_checkin dZero false false ["alice"] 1 2 ⟨0, 0⟩ DBState.empty).1.message ≠
      "Check-in failed. You are not within the allowed area." := by
  have hfar : ∀ g ∈ GEOFENCES, MAX_DISTANCE < dFar 1 2 g.2.1 g.2.2 := by
    intro g _
    norm_num [dFar, MAX_DISTANCE]
  refine ⟨hfar, ?_, ?_, dZero_within 1 2, ?_⟩
  · exact ((geofence_gate_spec dFar false false ["alice"] 1 2 ⟨0, 0⟩ DBState.empty).1 hfar).1
  · exact ((geofence_gate_spec dFar false false ["alice"] 1 2 ⟨0, 0⟩ DBState.empty).1 hfar).2
  · exact ((geofence_gate_spec dZero false false ["alice"] 1 2 ⟨0, 0⟩ DBState.empty).2
      (dZero_within 1 2)).1

/-- The default reported location is within the geofence under the real
haversine distance, since it coincides with the office zone center. -/
lemma default_within : is_within_geofence haversine DEFAULT_LAT DEFAULT_LON := by
  refine ⟨("office", 16.5422428, 81.4968464), ?_, ?_⟩
  · simp [GEOFENCES]
  · show haversine DEFAULT_LAT DEFAULT_LON 16.5422428 81.4968464 ≤ MAX_DISTANCE
    rw [show (16.5422428 : ℝ) = DEFAULT_LAT from rfl,
        show (81.4968464 : ℝ) = DEFAULT_LON from rfl,
        haversine_self]
    norm_num [MAX_DISTANCE]

/-- Claim C10: the check-in and check-out handlers default the reported coordinates
to the configured office geofence center, the haversine distance from the
center to itself is 0 ≤ 100 meters, so every request at the default location
passes the geofence gate and is never rejected with the geofence message. -/
theorem default_location_passes_geofence :
    DEFAULT_LAT = 16.5422428 ∧ DEFAULT_LON = 81.4968464 ∧
    ("office", DEFAULT_LAT, DEFAULT_LON) ∈ GEOFENCES ∧
    haversine DEFAULT_LAT DEFAULT_LON DEFAULT_LAT DEFAULT_LON = 0 ∧
    is_within_geofence haversine DEFAULT_LAT DEFAULT_LON ∧
    ∀ (errHas errLog : Bool) (faces : List String) (now : Timestamp) (st : DBState),
      (process_checkin haversine errHas errLog faces DEFAULT_LAT DEFAULT_LON now st).1.message ≠
        "Check-in failed. You are not within the allowed area." ∧
      (process_checkout haversine errHas errLog faces DEFAULT_LAT DEFAULT_LON now st).1.message ≠
        "Check-out failed. You are not within the allowed area." := by
  refine ⟨rfl, rfl, by simp [GEOFENCES, DEFAULT_LAT, DEFAULT_LON],
    haversine_self DEFAULT_LAT DEFAULT_LON, default_within, ?_⟩
  intro errHas errLog faces now st
  exact ⟨checkin_msg_of_within haversine errHas errLog faces DEFAULT_LAT DEFAULT_LON now st
      default_within,
    checkout_msg_of_within haversine errHas errLog faces DEFAULT_LAT DEFAULT_LON now st
      default_within⟩

/-- If no matching event exists (`any` is `false`), the event count is zero. -/
lemma countEvents_zero_of_any_false (n ev : String) (day : Nat) (st : DBState)
    (h : (st.attendance.any fun r =>
      r.user_name == n && r.event_type == ev && r.event_time.day == day) = false) :
    countEvents n ev day st = 0 := by
  rw [countEvents, List.length_eq_zero, List.filter_eq_nil_iff]
  rw [List.any_eq_false] at h
  exact h

/-- Claim C1: with the geofence passed and a recognized face, a check-in is rejected
with "already checked in today" and appends nothing when a checkin event for
that identity already exists on the current date; otherwise it succeeds and
appends exactly one checkin event, and an immediately following second
check-in the same day is rejected, leaving exactly one checkin event for that
identity and day. -/
theorem checkin_daily_idempotent (d : ℝ → ℝ → ℝ → ℝ → ℝ) (lat lon : ℝ)
    (n : String) (rest rest2 : List String) (now now2 : Timestamp) (st : DBState)
    (hgeo : is_within_geofence d lat lon) (hn : n ≠ "Unknown")
    (hday : now2.day = now.day) :
    (has_checked_in_today false n now.day st = true →
      process_checkin d false false (n :: rest) lat lon now st =
        (⟨false, "You have already checked in today."⟩, st)) ∧
    (has_checked_in_today false n now.day st = false →
      process_checkin d false false (n :: rest) lat lon now st =
        (⟨true, "Check-in successful!"⟩,
         { st with
            attendance := st.attendance ++ [⟨st.next_att_id, n, "checkin", now, lat, lon⟩],
            next_att_id := st.next_att_id + 1 }) ∧
      process_checkin d false false (n :: rest2) lat lon now2
          { st with
            attendance := st.attendance ++ [⟨st.next_att_id, n, "checkin", now, lat, lon⟩],
            next_att_id := st.next_att_id + 1 } =
        (⟨false, "You have already checked in today."⟩,
         { st with
            attendance := st.attendance ++ [⟨st.next_att_id, n, "checkin", now, lat, lon⟩],
            next_att_id := st.next_att_id + 1 }) ∧
      countEvents n "checkin" now.day
          { st with
            attendance := st.attendance ++ [⟨st.next_att_id, n, "checkin", now, lat, lon⟩],
            next_att_id := st.next_att_id + 1 } = 1) := by
  have hn' : (n == "Unknown") = false := beq_eq_false_iff_ne.mpr hn
  constructor
  · intro hin
    rw [process_checkin.eq_def, if_pos hgeo]
    simp [hn', hin]
  · intro hin
    refine ⟨?_, ?_, ?_⟩
    · rw [process_checkin.eq_def, if_pos hgeo]
      simp [hn', hin, log_attendance]
    · rw [process_checkin.eq_def, if_pos hgeo]
      have h2 : has_checked_in_today false n now2.day
          { st with
            attendance := st.attendance ++ [⟨st.next_att_id, n, "checkin", now, lat, lon⟩],
            next_att_id := st.next_att_id + 1 } = true := by
        simp [has_checked_in_today, hday]
      simp [hn', h2]
    · have h0 : countEvents n "checkin" now.day st = 0 :=
        countEvents_zero_of_any_false n "checkin" now.day st
          (by simpa [has_checked_in_today] using hin)
      rw [countEvents] at h0 ⊢
      simp only [List.filter_append, List.length_append] at *
      simp [h0]

/-- Witness for C1: alice checks in on day 5 against the empty ledger; the
first request succeeds, the immediate second request is rejected, and exactly
one checkin event for alice on day 5 remains. -/
theorem checkin_daily_idempotent_witness :
    is_within_geofence dZero 1 2 ∧ ("alice" : String) ≠ "Unknown" ∧
    (Timestamp.mk 5 1).day = (Timestamp.mk 5 0).day ∧
    has_checked_in_today false "alice" (Timestamp.mk 5 0).day DBState.empty = false ∧
    process_checkin dZero false false ["alice"] 1 2 ⟨5, 0⟩ DBState.empty =
      (⟨true, "Check-in successful!"⟩,
       ⟨[], [⟨1, "alice", "checkin", ⟨5, 0⟩, 1, 2⟩], 1, 2⟩) ∧
    process_checkin dZero false false ["alice"] 1 2 ⟨5, 1⟩
        ⟨[], [⟨1, "alice", "checkin", ⟨5, 0⟩, 1, 2⟩], 1, 2⟩ =
      (⟨false, "You have already checked in today."⟩,
       ⟨[], [⟨1, "alice", "checkin", ⟨5, 0⟩, 1, 2⟩], 1, 2⟩) ∧
    countEvents "alice" "checkin" (Timestamp.mk 5 0).day
      ⟨[], [⟨1, "alice", "checkin", ⟨5, 0⟩, 1, 2⟩], 1, 2⟩ = 1 := by
  have h := (checkin_daily_idempotent dZero 1 2 "alice" [] [] ⟨5, 0⟩ ⟨5, 1⟩ DBState.empty
    (dZero_within 1 2) (by decide) rfl).2 rfl
  exact ⟨dZero_within 1 2, by decide, rfl, rfl, h.1, h.2.1, h.2.2⟩

/-- Claim C5: a check-out is gated only on the absence of a checkout event for that
identity on the current date — no condition on checkin events appears — so a
checkout with no prior checkin that day still succeeds and appends a checkout
event, while a second checkout the same day is rejected with "already checked
out today" and appends nothing. -/
theorem checkout_independent_of_checkin (d : ℝ → ℝ → ℝ → ℝ → ℝ) (lat lon : ℝ)
    (n : String) (rest rest2 : List String) (now now2 : Timestamp) (st : DBState)
    (hgeo : is_within_geofence d lat lon) (hn : n ≠ "Unknown")
    (hday : now2.day = now.day) :
    (has_checked_out_today false n now.day st = true →
      process_checkout d false false (n :: rest) lat lon now st =
        (⟨false, "You have already checked out today."⟩, st)) ∧
    (has_checked_out_today false n now.day st = false →
      process_checkout d false false (n :: rest) lat lon now st =
        (⟨true, "Check-out successful!"⟩,
         { st with
            attendance := st.attendance ++ [⟨st.next_att_id, n, "checkout", now, lat, lon⟩],
            next_att_id := st.next_att_id + 1 }) ∧
      process_checkout d false false (n :: rest2) lat lon now2
          { st with
            attendance := st.attendance ++ [⟨st.next_att_id, n, "checkout", now, lat, lon⟩],
            next_att_id := st.next_att_id + 1 } =
        (⟨false, "You have already checked out today."⟩,
         { st with
            attendance := st.attendance ++ [⟨st.next_att_id, n, "checkout", now, lat, lon⟩],
            next_att_id := st.next_att_id + 1 }) ∧
      countEvents n "checkout" now.day
          { st with
            attendance := st.attendance ++ [⟨st.next_att_id, n, "checkout", now, lat, lon⟩],
            next_att_id := st.next_att_id + 1 } = 1) := by
  have hn' : (n == "Unknown") = false := beq_eq_false_iff_ne.mpr hn
  constructor
  · intro hout
    rw [process_checkout.eq_def, if_pos hgeo]
    simp [hn', hout]
  · intro hout
    refine ⟨?_, ?_, ?_⟩
    · rw [process_checkout.eq_def, if_pos hgeo]
      simp [hn', hout, log_attendance]
    · rw [process_checkout.eq_def, if_pos hgeo]
      have h2 : has_checked_out_today false n now2.day
          { st with
            attendance := st.attendance ++ [⟨st.next_att_id, n, "checkout", now, lat, lon⟩],
            next_att_id := st.next_att_id + 1 } = true := by
        simp [has_checked_out_today, hday]
      simp [hn', h2]
    · have h0 : countEvents n "checkout" now.day st = 0 :=
        countEvents_zero_of_any_false n "checkout" now.day st
          (by simpa [has_checked_out_today] using hout)
      rw [countEvents] at h0 ⊢
      simp only [List.filter_append, List.length_append] at *
      simp [h0]

/-- Witness for C5: bob checks out on day 3 against the empty ledger — which
in particular holds no checkin for bob that day — the first request succeeds,
the second is rejected, and exactly one checkout event remains. -/
theorem checkout_independent_of_checkin_witness :
    is_within_geofence dZero 1 2 ∧ ("bob" : String) ≠ "Unknown" ∧
    (Timestamp.mk 3 1).day = (Timestamp.mk 3 0).day ∧
    has_checked_out_today false "bob" (Timestamp.mk 3 0).day DBState.empty = false ∧
    has_checked_in_today false "bob" (Timestamp.mk 3 0).day DBState.empty = false ∧
    countEvents "bob" "checkin" (Timestamp.mk 3 0).day DBState.empty = 0 ∧
    process_checkout dZero false false ["bob"] 1 2 ⟨3, 0⟩ DBState.empty =
      (⟨true, "Check-out successful!"⟩,
       ⟨[], [⟨1, "bob", "checkout", ⟨3, 0⟩, 1, 2⟩], 1, 2⟩) ∧
    process_checkout dZero false false ["bob"] 1 2 ⟨3, 1⟩
        ⟨[], [⟨1, "bob", "checkout", ⟨3, 0⟩, 1, 2⟩], 1, 2⟩ =
      (⟨false, "You have already checked out today."⟩,
       ⟨[], [⟨1, "bob", "checkout", ⟨3, 0⟩, 1, 2⟩], 1, 2⟩) ∧
    countEvents "bob" "checkout" (Timestamp.mk 3 0).day
      ⟨[], [⟨1, "bob", "checkout", ⟨3, 0⟩, 1, 2⟩], 1, 2⟩ = 1 := by
  have h := (checkout_independent_of_checkin dZero 1 2 "bob" [] [] ⟨3, 0⟩ ⟨3, 1⟩ DBState.empty
    (dZero_within 1 2) (by decide) rfl).2 rfl
  exact ⟨dZero_within 1 2, by decide, rfl, rfl, rfl, rfl, h.1, h.2.1, h.2.2⟩

/-- Claim C9: when the underlying store query raises, `has_checked_in_today` and
`has_checked_out_today` return `false` — indistinguishable from "no event
today" — so a check-in whose idempotency check failed proceeds to log a new
attendance event unconditionally, even if a checkin for that identity and day
already exists. -/
theorem idempotency_check_swallows_errors :
    (∀ (n : String) (today : Nat) (st : DBState),
      has_checked_in_today true n today st = false ∧
      has_checked_out_today true n today st = false) ∧
    (∀ (d : ℝ → ℝ → ℝ → ℝ → ℝ) (lat lon : ℝ) (n : String) (rest : List String)
      (now : Timestamp) (st : DBState),
      is_within_geofence d lat lon → n ≠ "Unknown" →
      process_checkin d true false (n :: rest) lat lon now st =
        (⟨true, "Check-in successful!"⟩,
         { st with
            attendance := st.attendance ++ [⟨st.next_att_id, n, "checkin", now, lat, lon⟩],
            next_att_id := st.next_att_id + 1 })) := by
  constructor
  · intro n today st
    exact ⟨rfl, rfl⟩
  · intro d lat lon n rest now st hgeo hn
    have hn' : (n == "Unknown") = false := beq_eq_false_iff_ne.mpr hn
    rw [process_checkin.eq_def, if_pos hgeo]
    simp [hn', has_checked_in_today, log_attendance]

/-- Witness for C9: alice already has a checkin on day 0, yet with the
idempotency query failing the check-in flow logs a second checkin event. -/
theorem idempotency_check_swallows_errors_witness :
    is_within_geofence dZero 1 2 ∧ ("alice" : String) ≠ "Unknown" ∧
    has_checked_in_today false "alice" (Timestamp.mk 0 1).day stC9 = true ∧
    has_checked_in_today true "alice" (Timestamp.mk 0 1).day stC9 = false ∧
    process_checkin dZero true false ["alice"] 1 2 ⟨0, 1⟩ stC9 =
      (⟨true, "Check-in successful!"⟩,
       ⟨[], [⟨1, "alice", "checkin", ⟨0, 0⟩, 0, 0⟩,
             ⟨2, "alice", "checkin", ⟨0, 1⟩, 1, 2⟩], 1, 3⟩) :=
  ⟨dZero_within 1 2, by decide, rfl, rfl,
   idempotency_check_swallows_errors.2 dZero 1 2 "alice" [] ⟨0, 1⟩ stC9
     (dZero_within 1 2) (by decide)⟩

/-- Claim C6: `delete_user(name)` returns `true` exactly when an identity row with
that name existed; on a successful delete no identity row and — through the
`ON DELETE CASCADE` relationship — no attendance event with that `user_name`
remains; a `false` return (not found) leaves the state unchanged and is not a
failure. -/
theorem delete_user_cascade (name : String) (st : DBState) :
    ((delete_user false name st).1 = true ↔ ∃ r ∈ st.face_embeddings, r.name = name) ∧
    ((delete_user false name st).1 = true →
      (∀ a ∈ (delete_user false name st).2.attendance, a.user_name ≠ name) ∧
      (∀ r ∈ (delete_user false name st).2.face_embeddings, r.name ≠ name)) ∧
    ((delete_user false name st).1 = false → (delete_user false name st).2 = st) := by
  rw [delete_user]
  simp only [if_false, Bool.false_eq_true, ite_false]
  by_cases h : (st.face_embeddings.filter (fun r => !(r.name == name))).length <
      st.face_embeddings.length
  · rw [if_pos h]
    refine ⟨?_, ?_, ?_⟩
    · simp only [true_iff]
      rw [List.length_filter_lt_length_iff_exists] at h
      obtain ⟨r, hr, hp⟩ := h
      exact ⟨r, hr, by simpa using hp⟩
    · intro _
      constructor
      · intro a ha
        have := (List.mem_filter.mp ha).2
        simpa using this
      · intro r hr
        have := (List.mem_filter.mp hr).2
        simpa using this
    · intro hfalse
      simp at hfalse
  · rw [if_neg h]
    refine ⟨?_, ?_, ?_⟩
    · rw [List.length_filter_lt_length_iff_exists] at h
      push_neg at h
      simp only [Bool.false_eq_true, false_iff]
      rintro ⟨r, hr, hname⟩
      have := h r hr
      simp [hname] at this
    · intro hfalse
      simp at hfalse
    · intro _
      rfl

/-- Witness for C6: deleting bob from a store holding bob and carol removes
bob's identity row and his attendance event while keeping the return-value
contract. -/
theorem delete_user_cascade_witness :
    (delete_user false "bob" stC6).1 = true ∧
    (∀ a ∈ (delete_user false "bob" stC6).2.attendance, a.user_name ≠ "bob") ∧
    (∀ r ∈ (delete_user false "bob" stC6).2.face_embeddings, r.name ≠ "bob") ∧
    (delete_user false "dave" stC6).1 = false ∧
    (delete_user false "dave" stC6).2 = stC6 := by
  have h1 := (delete_user_cascade "bob" stC6).2.1 (by rfl)
  have h2 := (delete_user_cascade "dave" stC6).2.2 (by rfl)
  exact ⟨rfl, h1.1, h1.2, rfl, h2⟩


/-- Effect of one upsert on the per-name row count: an update leaves every
count unchanged; an insert adds one row carrying the inserted name. -/
lemma countName_store_embedding (x name : String) (emb : List ℚ) (now : Timestamp)
    (st : DBState) :
    countName x (store_embedding false name emb now st).2 =
      if st.face_embeddings.any (fun r => r.name == name) then countName x st
      else countName x st + (if name == x then 1 else 0) := by
  rw [store_embedding]
  simp only [Bool.false_eq_true, ite_false]
  rw [countName, countName, upsertRow]
  by_cases h : st.face_embeddings.any (fun r => r.name == name)
  · rw [if_pos h, if_pos h]
    rw [List.filter_map, List.length_map]
    congr 1
    apply List.filter_congr
    intro r _
    by_cases hr : r.name = name
    · simp [hr]
    · simp [hr]
  · rw [if_neg h, if_neg h]
    rw [List.filter_append, List.length_append]
    congr 1
    cases hnx : (name == x) with
    | true => simp [List.filter, hnx]
    | false => simp [List.filter, hnx]

/-- If no row carries `name`, the count of rows named `name` is zero. -/
lemma countName_zero_of_any_false (name : String) (st : DBState)
    (h : st.face_embeddings.any (fun r => r.name == name) = false) :
    countName name st = 0 := by
  rw [countName, List.length_eq_zero, List.filter_eq_nil_iff]
  rw [List.any_eq_false] at h
  exact h

/-- If some row carries `name`, the count of rows named `name` is positive. -/
lemma countName_pos_of_any_true (name : String) (st : DBState)
    (h : st.face_embeddings.any (fun r => r.name == name) = true) :
    0 < countName name st := by
  rw [List.any_eq_true] at h
  obtain ⟨r, hr, hp⟩ := h
  rw [countName, List.length_pos]
  exact List.ne_nil_of_mem (List.mem_filter.mpr ⟨hr, hp⟩)

/-- Finding by name after an in-place embedding update yields the new embedding. -/
lemma find_map_update (name : String) (emb : List ℚ) (rows : List FaceRow)
    (h : rows.any (fun r => r.name == name) = true) :
    ((rows.map (fun r => if r.name == name then { r with embedding := emb } else r)).find?
        (fun r => r.name == name)).map (fun r => r.embedding) = some emb := by
  induction rows with
  | nil => simp at h
  | cons r rs ih =>
    cases hr : (r.name == name) with
    | true =>
      rw [List.map_cons, if_pos (by simpa using hr)]
      have hfind : List.find? (fun r => r.name == name)
          ({ r with embedding := emb } ::
            rs.map (fun r => if r.name == name then { r with embedding := emb } else r)) =
          some { r with embedding := emb } :=
        List.find?_cons_of_pos _ hr
      rw [hfind]
      rfl
    | false =>
      rw [List.map_cons, if_neg (by simp [Bool.not_eq_true] at hr ⊢; exact hr)]
      have hfind : List.find? (fun r => r.name == name)
          (r :: rs.map (fun r => if r.name == name then { r with embedding := emb } else r)) =
          List.find? (fun r => r.name == name)
            (rs.map (fun r => if r.name == name then { r with embedding := emb } else r)) :=
        List.find?_cons_of_neg _ (by simp [hr])
      rw [hfind]
      apply ih
      simpa [hr] using h

/-- After an error-free upsert of `name`, the first row found under `name`
carries the new embedding. -/
lemma findEmb_store_embedding (name : String) (emb : List ℚ) (now : Timestamp)
    (st : DBState) :
    findEmb name (store_embedding false name emb now st).2 = some emb := by
  rw [store_embedding]
  simp only [Bool.false_eq_true, ite_false]
  rw [findEmb, upsertRow]
  by_cases h : st.face_embeddings.any (fun r => r.name == name)
  · rw [if_pos h]
    exact find_map_update name emb st.face_embeddings h
  · rw [if_neg h]
    rw [List.find?_append]
    have hnone : st.face_embeddings.find? (fun r => r.name == name) = none := by
      rw [List.find?_eq_none]
      intro x hx
      have h' : st.face_embeddings.any (fun r => r.name == name) = false := by
        simpa using h
      rw [List.any_eq_false] at h'
      exact h' x hx
    rw [hnone]
    simp

/-- One error-free upsert preserves "at most one row per name". -/
lemma countName_store_le (x name : String) (emb : List ℚ) (now : Timestamp)
    (st : DBState) (hx : countName x st ≤ 1) :
    countName x (store_embedding false name emb now st).2 ≤ 1 := by
  rw [countName_store_embedding]
  by_cases h : st.face_embeddings.any (fun r => r.name == name)
  · rw [if_pos h]
    exact hx
  · rw [if_neg h]
    cases hnx : (name == x) with
    | false => simpa using hx
    | true =>
      have hname : name = x := eq_of_beq hnx
      subst hname
      have hx0 : countName name st = 0 :=
        countName_zero_of_any_false name st (by simpa using h)
      simp [hx0]

/-- Any sequence of error-free upserts preserves "at most one row per name". -/
lemma enrollSeq_countName_le (ops : List (String × List ℚ × Timestamp))
    (st : DBState) (hst : ∀ x, countName x st ≤ 1) :
    ∀ x, countName x (enrollSeq ops st) ≤ 1 := by
  induction ops generalizing st with
  | nil => exact hst
  | cons op rest ih =>
    show ∀ x, countName x (enrollSeq rest (store_embedding false op.1 op.2.1 op.2.2 st).2) ≤ 1
    exact ih _ (fun x => countName_store_le x op.1 op.2.1 op.2.2 st (hst x))

/-- Claim C4: after any sequence of enrollments starting from the empty store, at
most one identity row exists per name; and an error-free (re-)enrollment of
`name` succeeds, leaves exactly one row named `name` (given the uniqueness
invariant), and the row found under `name` carries the newly stored embedding
— upsert semantics, overwrite rather than duplicate. -/
theorem enroll_upsert_semantics :
    (∀ (ops : List (String × List ℚ × Timestamp)) (x : String),
      countName x (enrollSeq ops DBState.empty) ≤ 1) ∧
    (∀ (name : String) (emb : List ℚ) (now : Timestamp) (st : DBState),
      countName name st ≤ 1 →
      (store_embedding false name emb now st).1 = true ∧
      countName name (store_embedding false name emb now st).2 = 1 ∧
      findEmb name (store_embedding false name emb now st).2 = some emb) := by
  constructor
  · intro ops x
    exact enrollSeq_countName_le ops DBState.empty
      (fun y => by simp [countName, DBState.empty]) x
  · intro name emb now st h1
    refine ⟨rfl, ?_, findEmb_store_embedding name emb now st⟩
    rw [countName_store_embedding]
    by_cases h : st.face_embeddings.any (fun r => r.name == name)
    · rw [if_pos h]
      have := countName_pos_of_any_true name st h
      omega
    · rw [if_neg h]
      have h0 := countName_zero_of_any_false name st (by simpa using h)
      simp [h0]

/-- Witness for C4: re-enrolling bob, already stored with embedding `[1]`,
under embedding `[2]` keeps a single bob row and overwrites the embedding. -/
theorem enroll_upsert_semantics_witness :
    countName "bob" stC4 ≤ 1 ∧ findEmb "bob" stC4 = some [1] ∧
    (store_embedding false "bob" [2] ⟨1, 0⟩ stC4).1 = true ∧
    countName "bob" (store_embedding false "bob" [2] ⟨1, 0⟩ stC4).2 = 1 ∧
    findEmb "bob" (store_embedding false "bob" [2] ⟨1, 0⟩ stC4).2 = some [2] := by
  have h := enroll_upsert_semantics.2 "bob" [2] ⟨1, 0⟩ stC4 (by decide)
  exact ⟨by decide, by decide, h.1, h.2.1, h.2.2⟩

/-- Claim C3: `vector_search` returns at most 5 identities; every returned identity
has similarity `1 - dist` to the query strictly greater than 0.9; the results
are ordered by descending similarity; and when no stored identity clears the
threshold the result is the empty list, not an error. -/
theorem vector_search_spec (dist : List ℚ → List ℚ → ℚ) (err : Bool) (enc : List ℚ)
    (st : DBState) :
    (vector_search dist err enc st).length ≤ 5 ∧
    (∀ r ∈ vector_search dist err enc st, (0.9 : ℚ) < r.similarity) ∧
    List.Sorted (fun a b : SearchResult => b.similarity ≤ a.similarity)
      (vector_search dist err enc st) ∧
    ((∀ row ∈ st.face_embeddings, 1 - dist row.embedding enc ≤ 0.9) →
      vector_search dist err enc st = []) := by
  cases err with
  | true =>
    refine ⟨by simp [vector_search], ?_, by simp [vector_search], fun _ => rfl⟩
    intro r hr
    simp [vector_search] at hr
  | false =>
    simp only [vector_search, Bool.false_eq_true, ite_false]
    haveI ht : IsTotal FaceRow (fun a b => dist a.embedding enc ≤ dist b.embedding enc) :=
      ⟨fun a b => le_total _ _⟩
    haveI htr : IsTrans FaceRow (fun a b => dist a.embedding enc ≤ dist b.embedding enc) :=
      ⟨fun _ _ _ hab hbc => le_trans hab hbc⟩
    refine ⟨?_, ?_, ?_, ?_⟩
    · rw [List.length_map, List.length_take]
      exact min_le_left _ _
    · intro r hr
      rw [List.mem_map] at hr
      obtain ⟨a, ha, rfl⟩ := hr
      have ha2 : a ∈ List.insertionSort
          (fun a b => dist a.embedding enc ≤ dist b.embedding enc)
          (st.face_embeddings.filter
            (fun r => decide ((0.9 : ℚ) < 1 - dist r.embedding enc))) :=
        List.mem_of_mem_take ha
      rw [List.mem_insertionSort] at ha2
      have := (List.mem_filter.mp ha2).2
      exact of_decide_eq_true this
    · have hs : List.Sorted (fun a b => dist a.embedding enc ≤ dist b.embedding enc)
          (List.insertionSort (fun a b => dist a.embedding enc ≤ dist b.embedding enc)
            (st.face_embeddings.filter
              (fun r => decide ((0.9 : ℚ) < 1 - dist r.embedding enc)))) :=
        List.sorted_insertionSort _ _
      have hst5 := hs.sublist (List.take_sublist 5 _)
      exact List.pairwise_map.mpr (hst5.imp (fun hab => sub_le_sub_left hab 1))
    · intro hall
      have hnil : st.face_embeddings.filter
          (fun r => decide ((0.9 : ℚ) < 1 - dist r.embedding enc)) = [] := by
        rw [List.filter_eq_nil_iff]
        intro a ha
        simpa using not_lt.mpr (hall a ha)
      rw [hnil]
      rfl

/-- Witness for C3: over a store with similarities 0.95, 0.99 and 0.8 the
bob row (similarity 0.99) is returned with similarity above the threshold,
and a store whose only identity has similarity 0.8 yields the empty list. -/
theorem vector_search_spec_witness :
    (vector_search dist0 false [] stV).length ≤ 5 ∧
    (⟨2, "bob", [1/100], ⟨0, 0⟩, 99/100⟩ : SearchResult) ∈ vector_search dist0 false [] stV ∧
    (0.9 : ℚ) < (⟨2, "bob", [1/100], ⟨0, 0⟩, 99/100⟩ : SearchResult).similarity ∧
    (∀ row ∈ stV2.face_embeddings, 1 - dist0 row.embedding [] ≤ 0.9) ∧
    vector_search dist0 false [] stV2 = [] := by
  have hv : vector_search dist0 false [] stV =
      [⟨2, "bob", [1/100], ⟨0, 0⟩, 99/100⟩, ⟨1, "alice", [5/100], ⟨0, 0⟩, 95/100⟩] := by
    norm_num [vector_search, stV, dist0, List.filter, List.insertionSort, List.orderedInsert]
  have hmem : (⟨2, "bob", [1/100], ⟨0, 0⟩, 99/100⟩ : SearchResult) ∈
      vector_search dist0 false [] stV := by
    rw [hv]
    simp
  have hall : ∀ row ∈ stV2.face_embeddings, 1 - dist0 row.embedding [] ≤ 0.9 := by
    intro row hr
    simp only [stV2] at hr
    rw [List.mem_singleton] at hr
    subst hr
    norm_num [dist0]
  exact ⟨(vector_search_spec dist0 false [] stV).1, hmem,
    (vector_search_spec dist0 false [] stV).2.1 _ hmem, hall,
    (vector_search_spec dist0 false [] stV2).2.2.2 hall⟩
